import Mathlib

/-!
# Verification of the RetrovertApp core-loader (`src/lib.rs`)

A shallow embedding of the single Rust source file of the repository:
the startup path resolver (`find_data_directory`, `Core::init_data_directory`),
the logging initialisation (`Core::init_logging`), the library loader
(`Core::load_core`) and the symbol resolver (`Core::new`), together with
theorems settling the specification claims about them.

Conventions of the embedding:

* Filesystem directories are absolute paths encoded as `List String` of
  components listed innermost-first, so `/proj/bin` is `["bin", "proj"]` and
  the root `/` is `[]`.  With this encoding Rust's `Path::parent` is `List.tail`
  (returning `None` exactly at the root, as `Path::parent` does for `/`), and
  `path.join("data")` is `"data" :: path`.
* The filesystem itself is the list of directories that exist; `Path::exists`
  is list membership.
* The mutable process state touched by the resolver (`std::env::current_dir`,
  `std::env::set_current_dir`) is threaded explicitly through an `FsState`;
  every effected `set_current_dir` is additionally recorded in an event list so
  that claims counting working-directory mutations can be stated.
* Rust `Result` is `Except String`; an `anyhow` context message is the string.
-/

namespace CoreLoader

/-- A directory path, components innermost-first; `[]` is the filesystem root. -/
abbrev Dir := List String

/-- The part of the process environment the path resolver reads and mutates:
the set of existing directories, the current working directory, and the trace
of every `set_current_dir` call that took effect. -/
structure FsState where
  fs : List Dir
  cwd : Dir
  setCwdEvents : List Dir
deriving DecidableEq, Repr

/-- `Path::exists` on a directory: membership in the set of existing
directories. -/
def dirExists (fs : List Dir) (p : Dir) : Bool :=
  decide (p ∈ fs)

/-- `std::env::set_current_dir(p)`: succeeds (recording the event and updating
`cwd`) when the target directory exists, fails otherwise. -/
def set_current_dir (s : FsState) (p : Dir) : Except String FsState :=
  if dirExists s.fs p then
    Except.ok { s with cwd := p, setCwdEvents := s.setCwdEvents ++ [p] }
  else
    Except.error "set_current_dir failed"

/-- The `loop` of `find_data_directory` (src/lib.rs lines 43-52): check whether
`path/data` exists; if so `set_current_dir(path)` and return, otherwise step to
`path.parent()`, failing with the `"Unable to get parent dir"` context when the
root has no parent. -/
def findLoop (s : FsState) (path : Dir) : Except String FsState :=
  if dirExists s.fs ("data" :: path) then
    set_current_dir s path
  else
    match path with
    | [] => Except.error "Unable to get parent dir"
    | _ :: parent => findLoop s parent

/-- `find_data_directory` (src/lib.rs lines 33-53): if `current_dir/data`
exists return at once (without touching the working directory); otherwise walk
`current_dir.parent()`, `…` upward via `findLoop`. -/
def find_data_directory (s : FsState) : Except String FsState :=
  if dirExists s.fs ("data" :: s.cwd) then
    Except.ok s
  else
    match s.cwd with
    | [] => Except.error "Unable to get parent dir"
    | _ :: parent => findLoop s parent

/-- `Core::init_data_directory` (src/lib.rs lines 89-109): set the working
directory to the executable's parent, run `find_data_directory`, then set the
working directory back to the executable's parent (the code comment says this
is "to enforce we load relative to the current exe").  The executable path
`exe` is components innermost-first with the file name at the head, so its
parent is `exe.tail`, absent only for a degenerate empty path. -/
def init_data_directory (exe : List String) (s : FsState) : Except String FsState :=
  match exe with
  | [] => Except.error "Unable to get parent directory"
  | _ :: exeDir =>
    match set_current_dir s exeDir with
    | Except.error e => Except.error e
    | Except.ok s1 =>
      match find_data_directory s1 with
      | Except.error e => Except.error ("Unable to find data directory: " ++ e)
      | Except.ok s2 =>
        match set_current_dir s2 exeDir with
        | Except.error e => Except.error e
        | Except.ok s3 => Except.ok s3

/-- Specification-side description of the ancestor search: the first directory
on the upward chain starting at `p` (including `p` itself, ending at the root)
whose `data` subdirectory exists. -/
def firstDataAncestor (fs : List Dir) (p : Dir) : Option Dir :=
  if dirExists fs ("data" :: p) then some p
  else
    match p with
    | [] => none
    | _ :: parent => firstDataAncestor fs parent

/-- Sanity of the filesystem model: every existing `data` directory lives in an
existing parent directory (true of any real filesystem).  Needed so that the
`set_current_dir` into a found ancestor cannot fail. -/
def parentClosed (fs : List Dir) : Bool :=
  fs.all fun d => if d.head? = some "data" then dirExists fs d.tail else true

/-!
## Logging initialisation (`Core::init_logging`, src/lib.rs lines 56-87)

The severity thresholds of the `log` crate are modelled faithfully; the
environment-dependent fallible steps (`ProjectDirs::from`, `create_dir_all`,
`File::create`, `CombinedLogger::init`) are parametrised by the outcomes the
operating system would give them.
-/

/-- `log::LevelFilter` with the ordering of the `log` crate:
`Off < Error < Warn < Info < Debug < Trace` (a lower filter lets fewer
messages through, i.e. is coarser). -/
inductive LevelFilter where
  | off
  | error
  | warn
  | info
  | debug
  | trace
deriving DecidableEq, Repr

/-- Numeric rank of a `LevelFilter` in the `log` crate's order. -/
def LevelFilter.toNat : LevelFilter → Nat
  | .off => 0
  | .error => 1
  | .warn => 2
  | .info => 3
  | .debug => 4
  | .trace => 5

/-- `a` is a strictly coarser severity threshold than `b`: it admits strictly
fewer messages. -/
def strictlyCoarser (a b : LevelFilter) : Prop :=
  a.toNat < b.toNat

instance (a b : LevelFilter) : Decidable (strictlyCoarser a b) := by
  unfold strictlyCoarser; infer_instance

/-- One output of the combined sink: a terminal logger or a file logger with
its minimum severity (and, for the file, the log file path). -/
inductive SinkOutput where
  | term (level : LevelFilter)
  | write (level : LevelFilter) (file : String)
deriving DecidableEq, Repr

/-- `Core::init_logging`: obtain the per-application configuration directory,
create it (the source calls `create_dir_all` twice, the second time with the
context `"test"`), create the log file `retrovert.log` inside it, and install
a single `CombinedLogger` holding a terminal logger at `Warn` and a file
logger at `Info`.  `projectConfigDir` models `ProjectDirs::from(...)`,
`createDirOk`/`createFileOk` the filesystem outcomes, `loggerAlreadySet`
whether `CombinedLogger::init` would fail with `SetLoggerError`.  On success
it returns the installed combined sink. -/
def init_logging (projectConfigDir : Option String) (createDirOk : String → Bool)
    (createFileOk : String → Bool) (loggerAlreadySet : Bool) :
    Except String (List SinkOutput) :=
  match projectConfigDir with
  | none => Except.error "Unable to get a user directory for config and log output."
  | some dir =>
    if createDirOk dir then
      if createDirOk dir then
        let log_file_path := dir ++ "/retrovert.log"
        if createFileOk log_file_path then
          if loggerAlreadySet then
            Except.error "attempted to set a logger after the logging system was already initialized"
          else
            Except.ok [SinkOutput.term LevelFilter.warn,
                       SinkOutput.write LevelFilter.info log_file_path]
        else Except.error "Unable to create file"
      else Except.error "test"
    else Except.error "Unable to create the directory"

/-!
## Library loading and symbol resolution (`Core::load_core`, `Core::new`)

A loaded `Library` is modelled by an identity tag (standing for the loaded
in-memory image), its list of exported symbol names, and the result its
`core_setup_logger` entry point returns when invoked.  A resolved `Symbol`
carries the identity of the library it was resolved from — the shallow
rendering of the `'a` lifetime on `Symbol<'a, T>`.  `Core::new` is given the
global logging state (`log::logger()`, `log::max_level()`) as data and emits a
trace of the symbol lookups and calls it performs.
-/

/-- A loaded dynamic library: identity of the loaded image, exported symbol
names, and whether its `core_setup_logger` (when present and called) returns
`Ok`. -/
structure Library where
  libId : Nat
  exports : List String
  setupLoggerOk : Bool
deriving DecidableEq, Repr

/-- A resolved symbol: it records the library it was resolved from (`libId`)
and the exported name it was bound to.  The `libId` field is the embedding of
the `'a` borrow tying `Symbol<'a, T>` to its `Library`. -/
structure Symbol where
  libId : Nat
  name : String
deriving DecidableEq, Repr

/-- `Library::get`: resolving an exported name succeeds exactly when the name
is exported, and yields a symbol tied to this library. -/
def Library.get (lib : Library) (name : String) : Except String Symbol :=
  if name ∈ lib.exports then Except.ok ⟨lib.libId, name⟩
  else Except.error ("symbol not found: " ++ name)

/-- The `Core` struct (src/lib.rs lines 24-28): exactly the three required
resolved entry points, nothing else. -/
structure Core where
  core_create_func : Symbol
  core_destroy_func : Symbol
  core_update_func : Symbol
deriving DecidableEq, Repr

/-- The process-wide logging globals read by `Core::new`: `log::logger()` and
`log::max_level()`, both opaque to the loader and modelled as tags. -/
structure LogGlobals where
  logger : Nat
  maxLevel : Nat
deriving DecidableEq, Repr

/-- Events observable at the host/module boundary during `Core::new`: a symbol
lookup by name, the invocation of `core_setup_logger` (with the logger and
level passed), and the three lifecycle calls (which `Core::new` never makes,
but which the trace type must be able to express for that to be a theorem). -/
inductive HostEvent where
  | lookup (name : String)
  | setupLoggerCall (logger : Nat) (maxLevel : Nat)
  | createCall
  | updateCall
  | destroyCall
deriving DecidableEq, Repr

/-- Outcome of running `Core::new`: a returned value, a returned `Err`, or a
Rust panic (the `.unwrap()` on the `core_setup_logger` result). -/
inductive RunResult (α : Type) where
  | ok (a : α)
  | err (msg : String)
  | fatal (msg : String)
deriving DecidableEq, Repr

/-- The required-symbol resolution half of `Core::new` (src/lib.rs lines
124-138): look up `core_create`, `core_destroy`, `core_update` in that order,
turning the first failure into the error naming that function. -/
def resolveRequired (lib : Library) (ev : List HostEvent) :
    RunResult Core × List HostEvent :=
  let ev1 := ev ++ [HostEvent.lookup "core_create"]
  match Library.get lib "core_create" with
  | Except.error _ => (RunResult.err "Unable to find \"core_create\" function", ev1)
  | Except.ok c =>
    let ev2 := ev1 ++ [HostEvent.lookup "core_destroy"]
    match Library.get lib "core_destroy" with
    | Except.error _ => (RunResult.err "Unable to find \"core_destroy\" function", ev2)
    | Except.ok d =>
      let ev3 := ev2 ++ [HostEvent.lookup "core_update"]
      match Library.get lib "core_update" with
      | Except.error _ => (RunResult.err "Unable to find \"core_update\" function", ev3)
      | Except.ok u => (RunResult.ok ⟨c, d, u⟩, ev3)

/-- `Core::new` (src/lib.rs lines 117-140): first try the optional
`core_setup_logger`; when it resolves, call it with `log::logger()` and
`log::max_level()` and `.unwrap()` the result (a panic, not an `Err`, on
failure); when it does not resolve, continue silently.  Then resolve the three
required symbols.  Returns the outcome together with the boundary-event
trace. -/
def Core.new (g : LogGlobals) (lib : Library) : RunResult Core × List HostEvent :=
  let ev0 := [HostEvent.lookup "core_setup_logger"]
  match Library.get lib "core_setup_logger" with
  | Except.ok _ =>
    let ev1 := ev0 ++ [HostEvent.setupLoggerCall g.logger g.maxLevel]
    if lib.setupLoggerOk then
      resolveRequired lib ev1
    else
      (RunResult.fatal "called Result::unwrap on an Err value", ev1)
  | Except.error _ => resolveRequired lib ev0

/-- The hardcoded module path of `Core::load_core` (src/lib.rs line 112). -/
def core_filename : String := "../../../retrovert-core/target/debug/librv_core.so"

/-- `Core::load_core` (src/lib.rs lines 111-115): ask the operating-system
loader (modelled as `os`, mapping a path to the library it would load) for the
hardcoded `core_filename`; no other path is ever consulted. -/
def Core.load_core (os : String → Option Library) : Except String Library :=
  match os core_filename with
  | some lib => Except.ok lib
  | none => Except.error ("cannot open " ++ core_filename)

/-- The three required exported names, in the order `Core::new` resolves
them. -/
def requiredNames : List String := ["core_create", "core_destroy", "core_update"]

/-- The error message `Core::new` attaches to a missing required export. -/
def missingMsg (n : String) : String := "Unable to find \"" ++ n ++ "\" function"

/-- Whether a run outcome is a returned `Err` (as opposed to a returned value
or a panic). -/
def RunResult.isErr {α : Type} : RunResult α → Bool
  | .err _ => true
  | _ => false

/-!
## Helper lemmas about the path resolver
-/

theorem set_current_dir_ok {s : FsState} {p : Dir} {t : FsState}
    (h : set_current_dir s p = Except.ok t) :
    t = { s with cwd := p, setCwdEvents := s.setCwdEvents ++ [p] } ∧
      dirExists s.fs p = true := by
  unfold set_current_dir at h
  split at h
  · exact ⟨((Except.ok.injEq _ _).mp h).symm, by assumption⟩
  · cases h

theorem findLoop_ok {t : FsState} :
    ∀ (path : Dir) (s : FsState), findLoop s path = Except.ok t →
      t.fs = s.fs ∧ t.setCwdEvents = s.setCwdEvents ++ [t.cwd] ∧
        dirExists s.fs ("data" :: t.cwd) = true := by
  intro path
  induction path with
  | nil =>
    intro s h
    unfold findLoop at h
    by_cases hd : dirExists s.fs ("data" :: ([] : Dir)) = true
    · rw [if_pos hd] at h
      obtain ⟨ht, _⟩ := set_current_dir_ok h
      subst ht; exact ⟨rfl, rfl, by simpa using hd⟩
    · rw [if_neg hd] at h; cases h
  | cons x parent ih =>
    intro s h
    unfold findLoop at h
    by_cases hd : dirExists s.fs ("data" :: x :: parent) = true
    · rw [if_pos hd] at h
      obtain ⟨ht, _⟩ := set_current_dir_ok h
      subst ht; exact ⟨rfl, rfl, by simpa using hd⟩
    · rw [if_neg hd] at h
      exact ih s h

theorem find_data_directory_ok {s t : FsState}
    (h : find_data_directory s = Except.ok t) :
    t.fs = s.fs ∧ dirExists s.fs ("data" :: t.cwd) = true ∧
      (if dirExists s.fs ("data" :: s.cwd) = true then t = s
       else t.setCwdEvents = s.setCwdEvents ++ [t.cwd]) := by
  unfold find_data_directory at h
  by_cases hd : dirExists s.fs ("data" :: s.cwd) = true
  · rw [if_pos hd] at h
    cases h
    exact ⟨rfl, hd, by rw [if_pos hd]⟩
  · rw [if_neg hd] at h
    rw [if_neg hd]
    match hc : s.cwd, h with
    | [], h => cases h
    | x :: parent, h =>
      obtain ⟨h1, h2, h3⟩ := findLoop_ok parent s h
      exact ⟨h1, h3, h2⟩

theorem init_data_directory_ok {exe : List String} {s s' : FsState}
    (h : init_data_directory exe s = Except.ok s') :
    s'.cwd = exe.tail ∧ s'.fs = s.fs ∧
      (∃ q, dirExists s.fs ("data" :: q) = true) ∧
      s'.setCwdEvents.length =
        s.setCwdEvents.length +
          (if dirExists s.fs ("data" :: exe.tail) = true then 2 else 3) := by
  cases exe with
  | nil => exact Except.noConfusion h
  | cons name exeDir =>
    unfold init_data_directory at h
    cases h1 : set_current_dir s exeDir with
    | error e => simp only [h1] at h; exact Except.noConfusion h
    | ok s1 =>
      simp only [h1] at h
      cases h2 : find_data_directory s1 with
      | error e => simp only [h2] at h; exact Except.noConfusion h
      | ok s2 =>
        simp only [h2] at h
        cases h3 : set_current_dir s2 exeDir with
        | error e => simp only [h3] at h; exact Except.noConfusion h
        | ok s3 =>
          simp only [h3] at h
          cases h
          obtain ⟨ht1, _⟩ := set_current_dir_ok h1
          obtain ⟨hfs2, hdata2, hev2⟩ := find_data_directory_ok h2
          obtain ⟨ht3, _⟩ := set_current_dir_ok h3
          subst ht1 ht3
          simp only [List.tail_cons] at *
          refine ⟨by simp, by simp [hfs2], ⟨s2.cwd, by simpa using hdata2⟩, ?_⟩
          by_cases hc : dirExists s.fs ("data" :: exeDir) = true
          · simp [hc] at hev2 ⊢
            subst hev2
            simp
          · simp [hc] at hev2 ⊢
            rw [hev2]
            simp [Nat.add_assoc]

theorem parentClosed_mem {fs : List Dir} (hpc : parentClosed fs = true) {p : Dir}
    (h : ("data" :: p) ∈ fs) : p ∈ fs := by
  have h2 := List.all_eq_true.mp hpc ("data" :: p) h
  simp [dirExists] at h2
  exact h2

theorem set_current_dir_found {s : FsState} {p : Dir} (hpc : parentClosed s.fs = true)
    (hd : dirExists s.fs ("data" :: p) = true) :
    set_current_dir s p =
      Except.ok { s with cwd := p, setCwdEvents := s.setCwdEvents ++ [p] } := by
  unfold set_current_dir
  rw [if_pos]
  have hm : ("data" :: p) ∈ s.fs := by simpa [dirExists] using hd
  simpa [dirExists] using parentClosed_mem hpc hm

theorem findLoop_firstDataAncestor {fs : List Dir} (hpc : parentClosed fs = true) :
    ∀ (path : Dir) (s : FsState), s.fs = fs →
      (∀ q, firstDataAncestor fs path = some q →
        findLoop s path =
          Except.ok { s with cwd := q, setCwdEvents := s.setCwdEvents ++ [q] }) ∧
      (firstDataAncestor fs path = none →
        findLoop s path = Except.error "Unable to get parent dir") := by
  intro path
  induction path with
  | nil =>
    intro s hs
    subst hs
    constructor
    · intro q hq
      unfold firstDataAncestor at hq
      by_cases hd : dirExists s.fs ("data" :: ([] : Dir)) = true
      · rw [if_pos hd] at hq
        cases hq
        unfold findLoop
        rw [if_pos hd]
        exact set_current_dir_found hpc hd
      · rw [if_neg hd] at hq
        cases hq
    · intro hq
      unfold firstDataAncestor at hq
      by_cases hd : dirExists s.fs ("data" :: ([] : Dir)) = true
      · rw [if_pos hd] at hq; cases hq
      · unfold findLoop
        rw [if_neg hd]
  | cons x parent ih =>
    intro s hs
    subst hs
    constructor
    · intro q hq
      unfold firstDataAncestor at hq
      by_cases hd : dirExists s.fs ("data" :: x :: parent) = true
      · rw [if_pos hd] at hq
        cases hq
        unfold findLoop
        rw [if_pos hd]
        exact set_current_dir_found hpc hd
      · rw [if_neg hd] at hq
        unfold findLoop
        rw [if_neg hd]
        exact (ih s rfl).1 q hq
    · intro hq
      unfold firstDataAncestor at hq
      by_cases hd : dirExists s.fs ("data" :: x :: parent) = true
      · rw [if_pos hd] at hq; cases hq
      · rw [if_neg hd] at hq
        unfold findLoop
        rw [if_neg hd]
        exact (ih s rfl).2 hq

/-!
## Claim C1 — working-directory contract after `init_data_directory`
-/

/-- Claim C1, counterexample.  The claim says that after `init_data_directory`
succeeds the working directory equals the ancestor containing the sentinel
`data` subdirectory.  In this concrete filesystem (`/proj`, `/proj/data`,
`/proj/bin` exist, executable `/proj/bin/app`) resolution succeeds, the unique
ancestor containing `data` is `/proj`, but the final working directory is
`/proj/bin` — the executable's directory, which contains no `data` — because
src/lib.rs lines 101-106 set the working directory back to the executable's
parent after `find_data_directory` returns. -/
theorem init_data_directory_cwd_counterexample :
    init_data_directory ["app", "bin", "proj"]
        ⟨[["proj"], ["data", "proj"], ["bin", "proj"]], ["start"], []⟩ =
      Except.ok ⟨[["proj"], ["data", "proj"], ["bin", "proj"]], ["bin", "proj"],
        [["bin", "proj"], ["proj"], ["bin", "proj"]]⟩ ∧
    dirExists [["proj"], ["data", "proj"], ["bin", "proj"]]
        ("data" :: ["bin", "proj"]) = false ∧
    dirExists [["proj"], ["data", "proj"], ["bin", "proj"]]
        ("data" :: ["proj"]) = true :=
  ⟨rfl, rfl, rfl⟩

/-- Claim C1, amended.  After `init_data_directory` succeeds, the process
working directory equals the executable's parent directory (not the `data`
ancestor); `find_data_directory` only verified, en route, that some ancestor
containing `data` exists.  The filesystem itself is unchanged throughout. -/
theorem init_data_directory_final_cwd (exe : List String) (s s' : FsState)
    (h : init_data_directory exe s = Except.ok s') :
    s'.cwd = exe.tail ∧ s'.fs = s.fs ∧
      ∃ q, dirExists s.fs ("data" :: q) = true := by
  obtain ⟨h1, h2, h3, _⟩ := init_data_directory_ok h
  exact ⟨h1, h2, h3⟩

/-- Witness for the amended claim C1, at the executable `/root2/bin2/app2`
with `data` in `/root2`. -/
theorem init_data_directory_final_cwd_witness :
    init_data_directory ["app2", "bin2", "root2"]
        ⟨[["root2"], ["data", "root2"], ["bin2", "root2"]], [], []⟩ =
      Except.ok ⟨[["root2"], ["data", "root2"], ["bin2", "root2"]], ["bin2", "root2"],
        [["bin2", "root2"], ["root2"], ["bin2", "root2"]]⟩ ∧
    (FsState.mk [["root2"], ["data", "root2"], ["bin2", "root2"]] ["bin2", "root2"]
        [["bin2", "root2"], ["root2"], ["bin2", "root2"]]).cwd =
      (["app2", "bin2", "root2"] : List String).tail ∧
    (FsState.mk [["root2"], ["data", "root2"], ["bin2", "root2"]] ["bin2", "root2"]
        [["bin2", "root2"], ["root2"], ["bin2", "root2"]]).fs =
      (FsState.mk [["root2"], ["data", "root2"], ["bin2", "root2"]] [] []).fs ∧
    ∃ q, dirExists (FsState.mk [["root2"], ["data", "root2"], ["bin2", "root2"]] [] []).fs
        ("data" :: q) = true :=
  ⟨rfl,
    (init_data_directory_final_cwd ["app2", "bin2", "root2"]
      ⟨[["root2"], ["data", "root2"], ["bin2", "root2"]], [], []⟩
      ⟨[["root2"], ["data", "root2"], ["bin2", "root2"]], ["bin2", "root2"],
        [["bin2", "root2"], ["root2"], ["bin2", "root2"]]⟩ rfl).1,
    (init_data_directory_final_cwd ["app2", "bin2", "root2"]
      ⟨[["root2"], ["data", "root2"], ["bin2", "root2"]], [], []⟩
      ⟨[["root2"], ["data", "root2"], ["bin2", "root2"]], ["bin2", "root2"],
        [["bin2", "root2"], ["root2"], ["bin2", "root2"]]⟩ rfl).2.1,
    (init_data_directory_final_cwd ["app2", "bin2", "root2"]
      ⟨[["root2"], ["data", "root2"], ["bin2", "root2"]], [], []⟩
      ⟨[["root2"], ["data", "root2"], ["bin2", "root2"]], ["bin2", "root2"],
        [["bin2", "root2"], ["root2"], ["bin2", "root2"]]⟩ rfl).2.2⟩

/-!
## Claim C5 — how many times the working directory is mutated
-/

/-- Claim C5, counterexample.  The claim says `set_current_dir` takes effect
exactly once across `init_data_directory`.  In this successful concrete run,
starting from an empty mutation trace, three `set_current_dir` calls take
effect: to the executable's parent `/r/b`, to the `data` ancestor `/r`, and
back to `/r/b`. -/
theorem init_data_directory_once_counterexample :
    init_data_directory ["e", "b", "r"] ⟨[["r"], ["data", "r"], ["b", "r"]], [], []⟩ =
      Except.ok ⟨[["r"], ["data", "r"], ["b", "r"]], ["b", "r"],
        [["b", "r"], ["r"], ["b", "r"]]⟩ ∧
    ([["b", "r"], ["r"], ["b", "r"]] : List Dir).length = 3 :=
  ⟨rfl, rfl⟩

/-- Claim C5, amended.  Over a successful `init_data_directory` (including
`find_data_directory`), `set_current_dir` takes effect exactly twice when the
executable's own directory contains the sentinel `data` subdirectory, and
exactly three times otherwise — never exactly once. -/
theorem init_data_directory_set_cwd_count (exe : List String) (s s' : FsState)
    (h : init_data_directory exe s = Except.ok s') :
    s'.setCwdEvents.length =
      s.setCwdEvents.length +
        (if dirExists s.fs ("data" :: exe.tail) = true then 2 else 3) :=
  (init_data_directory_ok h).2.2.2

/-- Witness for the amended claim C5: with `data` right next to the
executable the mutation count is two. -/
theorem init_data_directory_set_cwd_count_witness :
    init_data_directory ["a", "d1"] ⟨[["d1"], ["data", "d1"]], [], []⟩ =
      Except.ok ⟨[["d1"], ["data", "d1"]], ["d1"], [["d1"], ["d1"]]⟩ ∧
    (FsState.mk [["d1"], ["data", "d1"]] ["d1"] [["d1"], ["d1"]]).setCwdEvents.length =
      (FsState.mk [["d1"], ["data", "d1"]] [] []).setCwdEvents.length +
        (if dirExists (FsState.mk [["d1"], ["data", "d1"]] [] []).fs
            ("data" :: (["a", "d1"] : List String).tail) = true then 2 else 3) :=
  ⟨rfl, init_data_directory_set_cwd_count ["a", "d1"]
    ⟨[["d1"], ["data", "d1"]], [], []⟩
    ⟨[["d1"], ["data", "d1"]], ["d1"], [["d1"], ["d1"]]⟩ rfl⟩

/-!
## Claim C6 — `find_data_directory` finds the first `data` ancestor or fails
-/

/-- Claim C6.  Walking upward from the starting directory,
`find_data_directory` ends with the working directory at the first ancestor
(the starting directory itself included) whose `data` subdirectory exists, and
when no ancestor up to and including the root has one, it terminates with the
`"Unable to get parent dir"` error (the `PathResolutionError` of the spec)
rather than looping forever.  The `parentClosed` hypothesis is the filesystem
sanity fact that a directory containing `data` exists itself. -/
theorem find_data_directory_first_ancestor (fs : List Dir) (cwd : Dir) (evs : List Dir)
    (hpc : parentClosed fs = true) :
    (∀ q, firstDataAncestor fs cwd = some q →
      ∃ t, find_data_directory ⟨fs, cwd, evs⟩ = Except.ok t ∧ t.cwd = q ∧ t.fs = fs) ∧
    (firstDataAncestor fs cwd = none →
      find_data_directory ⟨fs, cwd, evs⟩ =
        Except.error "Unable to get parent dir") := by
  constructor
  · intro q hq
    by_cases hd : dirExists fs ("data" :: cwd) = true
    · unfold firstDataAncestor at hq
      rw [if_pos hd] at hq
      cases hq
      exact ⟨⟨fs, cwd, evs⟩, by simp [find_data_directory, hd], rfl, rfl⟩
    · unfold firstDataAncestor at hq
      rw [if_neg hd] at hq
      cases cwd with
      | nil => cases hq
      | cons x parent =>
        have hl := (findLoop_firstDataAncestor hpc parent ⟨fs, x :: parent, evs⟩ rfl).1 q hq
        refine ⟨⟨fs, q, evs ++ [q]⟩, ?_, rfl, rfl⟩
        unfold find_data_directory
        simp only [hd, if_false]
        exact hl
  · intro hq
    by_cases hd : dirExists fs ("data" :: cwd) = true
    · unfold firstDataAncestor at hq
      rw [if_pos hd] at hq
      cases hq
    · unfold firstDataAncestor at hq
      rw [if_neg hd] at hq
      cases cwd with
      | nil => simp [find_data_directory, hd]
      | cons x parent =>
        have hl := (findLoop_firstDataAncestor hpc parent ⟨fs, x :: parent, evs⟩ rfl).2 hq
        unfold find_data_directory
        simp only [hd, if_false]
        exact hl

/-- Witness for claim C6: with the working directory `/a/b/c/d` three levels
below `/a`, which contains `data`, resolution moves the working directory to
`/a`; and in a filesystem whose only directory is `/x`, resolution from `/x`
reaches the root and fails. -/
theorem find_data_directory_first_ancestor_witness :
    parentClosed [[], ["a"], ["data", "a"], ["b", "a"], ["c", "b", "a"],
        ["d", "c", "b", "a"]] = true ∧
    (∃ t, find_data_directory ⟨[[], ["a"], ["data", "a"], ["b", "a"], ["c", "b", "a"],
        ["d", "c", "b", "a"]], ["d", "c", "b", "a"], []⟩ = Except.ok t ∧
      t.cwd = ["a"] ∧
      t.fs = [[], ["a"], ["data", "a"], ["b", "a"], ["c", "b", "a"],
        ["d", "c", "b", "a"]]) ∧
    find_data_directory ⟨[["x"]], ["x"], []⟩ =
      Except.error "Unable to get parent dir" :=
  ⟨rfl,
    (find_data_directory_first_ancestor
      [[], ["a"], ["data", "a"], ["b", "a"], ["c", "b", "a"], ["d", "c", "b", "a"]]
      ["d", "c", "b", "a"] [] rfl).1 ["a"] rfl,
    (find_data_directory_first_ancestor [["x"]] ["x"] [] rfl).2 rfl⟩


/-!
## Helper lemmas about `resolveRequired` and `Core.new`
-/


theorem resolveRequired_events (lib : Library) (ev : List HostEvent) :
    ∀ e ∈ (resolveRequired lib ev).2,
      e ∈ ev ∨ ∃ n, n ∈ requiredNames ∧ e = HostEvent.lookup n := by
  intro e he
  unfold resolveRequired Library.get at he
  by_cases h1 : "core_create" ∈ lib.exports <;>
    by_cases h2 : "core_destroy" ∈ lib.exports <;>
      by_cases h3 : "core_update" ∈ lib.exports <;>
        simp [h1, h2, h3, requiredNames] at he ⊢ <;>
          tauto

theorem core_new_events (g : LogGlobals) (lib : Library) :
    ∀ e ∈ (Core.new g lib).2,
      (∃ n, e = HostEvent.lookup n) ∨ e = HostEvent.setupLoggerCall g.logger g.maxLevel := by
  intro e he
  unfold Core.new Library.get at he
  by_cases hs : "core_setup_logger" ∈ lib.exports
  · simp only [hs, if_pos] at he
    by_cases hok : lib.setupLoggerOk
    · simp only [hok, if_true] at he
      rcases resolveRequired_events lib _ e he with hmem | ⟨n, _, rfl⟩
      · simp at hmem
        rcases hmem with rfl | rfl
        · exact Or.inl ⟨_, rfl⟩
        · exact Or.inr rfl
      · exact Or.inl ⟨n, rfl⟩
    · simp only [hok, if_false] at he
      simp at he
      rcases he with rfl | rfl
      · exact Or.inl ⟨_, rfl⟩
      · exact Or.inr rfl
  · simp only [hs, if_neg] at he
    rcases resolveRequired_events lib _ e he with hmem | ⟨n, _, rfl⟩
    · simp at hmem
      subst hmem
      exact Or.inl ⟨_, rfl⟩
    · exact Or.inl ⟨n, rfl⟩

theorem resolveRequired_fst_ev (lib : Library) (ev ev' : List HostEvent) :
    (resolveRequired lib ev).1 = (resolveRequired lib ev').1 := by
  unfold resolveRequired Library.get
  by_cases h1 : "core_create" ∈ lib.exports <;>
    by_cases h2 : "core_destroy" ∈ lib.exports <;>
      by_cases h3 : "core_update" ∈ lib.exports <;>
        simp [h1, h2, h3]

theorem resolveRequired_all (lib : Library) (ev : List HostEvent)
    (hc : "core_create" ∈ lib.exports) (hd : "core_destroy" ∈ lib.exports)
    (hu : "core_update" ∈ lib.exports) :
    resolveRequired lib ev =
      (RunResult.ok ⟨⟨lib.libId, "core_create"⟩, ⟨lib.libId, "core_destroy"⟩,
        ⟨lib.libId, "core_update"⟩⟩,
       ev ++ [HostEvent.lookup "core_create", HostEvent.lookup "core_destroy",
         HostEvent.lookup "core_update"]) := by
  unfold resolveRequired Library.get
  simp [hc, hd, hu]

theorem resolveRequired_missing_named (lib : Library) (ev : List HostEvent) (n : String)
    (hn : n ∈ requiredNames) (hmiss : n ∉ lib.exports)
    (hothers : ∀ m ∈ requiredNames, m ≠ n → m ∈ lib.exports) :
    (resolveRequired lib ev).1 = RunResult.err (missingMsg n) := by
  simp only [requiredNames, List.mem_cons, List.mem_singleton, List.not_mem_nil,
    or_false] at hn
  rcases hn with rfl | rfl | rfl
  · unfold resolveRequired Library.get
    simp [hmiss]
    rfl
  · have hc : "core_create" ∈ lib.exports :=
      hothers "core_create" (by simp [requiredNames]) (by decide)
    unfold resolveRequired Library.get
    simp [hc, hmiss]
    rfl
  · have hc : "core_create" ∈ lib.exports :=
      hothers "core_create" (by simp [requiredNames]) (by decide)
    have hd : "core_destroy" ∈ lib.exports :=
      hothers "core_destroy" (by simp [requiredNames]) (by decide)
    unfold resolveRequired Library.get
    simp [hc, hd, hmiss]
    rfl

theorem resolveRequired_some_missing (lib : Library) (ev : List HostEvent)
    (h : ∃ n, n ∈ requiredNames ∧ n ∉ lib.exports) :
    ∃ n, n ∈ requiredNames ∧ n ∉ lib.exports ∧
      (resolveRequired lib ev).1 = RunResult.err (missingMsg n) := by
  by_cases h1 : "core_create" ∈ lib.exports
  · by_cases h2 : "core_destroy" ∈ lib.exports
    · by_cases h3 : "core_update" ∈ lib.exports
      · exfalso
        rcases h with ⟨n, hn, hna⟩
        simp [requiredNames] at hn
        rcases hn with rfl | rfl | rfl <;> tauto
      · refine ⟨"core_update", by simp [requiredNames], h3, ?_⟩
        unfold resolveRequired Library.get
        simp [h1, h2, h3]
        rfl
    · refine ⟨"core_destroy", by simp [requiredNames], h2, ?_⟩
      unfold resolveRequired Library.get
      simp [h1, h2]
      rfl
  · refine ⟨"core_create", by simp [requiredNames], h1, ?_⟩
    unfold resolveRequired Library.get
    simp [h1]
    rfl

theorem core_new_fst (g : LogGlobals) (lib : Library)
    (hnp : "core_setup_logger" ∈ lib.exports → lib.setupLoggerOk = true) :
    (Core.new g lib).1 = (resolveRequired lib []).1 := by
  unfold Core.new Library.get
  by_cases hs : "core_setup_logger" ∈ lib.exports
  · simp only [hs, if_pos, hnp hs, if_true]
    exact resolveRequired_fst_ev lib _ _
  · simp [hs]
    exact resolveRequired_fst_ev lib _ _

theorem core_new_fatal (g : LogGlobals) (lib : Library)
    (hs : "core_setup_logger" ∈ lib.exports) (hbad : lib.setupLoggerOk = false) :
    Core.new g lib =
      (RunResult.fatal "called Result::unwrap on an Err value",
       [HostEvent.lookup "core_setup_logger",
        HostEvent.setupLoggerCall g.logger g.maxLevel]) := by
  unfold Core.new Library.get
  simp [hs, hbad]

theorem core_new_ok {g : LogGlobals} {lib : Library} {c : Core}
    (h : (Core.new g lib).1 = RunResult.ok c) :
    c = ⟨⟨lib.libId, "core_create"⟩, ⟨lib.libId, "core_destroy"⟩,
        ⟨lib.libId, "core_update"⟩⟩ ∧
      "core_create" ∈ lib.exports ∧ "core_destroy" ∈ lib.exports ∧
      "core_update" ∈ lib.exports := by
  have hnp : "core_setup_logger" ∈ lib.exports → lib.setupLoggerOk = true := by
    intro hs
    cases hx : lib.setupLoggerOk
    · rw [(core_new_fatal g lib hs hx)] at h
      exact RunResult.noConfusion h
    · rfl
  rw [core_new_fst g lib hnp] at h
  by_cases h1 : "core_create" ∈ lib.exports
  · by_cases h2 : "core_destroy" ∈ lib.exports
    · by_cases h3 : "core_update" ∈ lib.exports
      · rw [resolveRequired_all lib [] h1 h2 h3] at h
        simp at h
        exact ⟨h.symm, h1, h2, h3⟩
      · obtain ⟨n, _, _, herr⟩ := resolveRequired_some_missing lib []
          ⟨"core_update", by simp [requiredNames], h3⟩
        rw [herr] at h
        exact RunResult.noConfusion h
    · obtain ⟨n, _, _, herr⟩ := resolveRequired_some_missing lib []
        ⟨"core_destroy", by simp [requiredNames], h2⟩
      rw [herr] at h
      exact RunResult.noConfusion h
  · obtain ⟨n, _, _, herr⟩ := resolveRequired_some_missing lib []
      ⟨"core_create", by simp [requiredNames], h1⟩
    rw [herr] at h
    exact RunResult.noConfusion h

set_option linter.unusedTactic false in
theorem resolveRequired_trace (lib : Library) (ev : List HostEvent) :
    ∃ rest, (resolveRequired lib ev).2 = ev ++ rest ∧
      rest ⊆ [HostEvent.lookup "core_create", HostEvent.lookup "core_destroy",
        HostEvent.lookup "core_update"] := by
  unfold resolveRequired Library.get
  by_cases h1 : "core_create" ∈ lib.exports <;>
    by_cases h2 : "core_destroy" ∈ lib.exports <;>
      by_cases h3 : "core_update" ∈ lib.exports <;>
        simp [h1, h2, h3] <;>
        first
        | (refine ⟨_, rfl, ?_⟩
           intro e he
           simp at he ⊢
           tauto)
        | skip


/-- Claim C2, counterexample.  The claim says that for every module missing a
required export, `Core::new` returns an error naming the missing entry point.
This concrete module is missing `core_update`, but it also exports a
`core_setup_logger` whose invocation fails; `Core::new` then panics on the
`.unwrap()` (src/lib.rs line 121) before required-symbol resolution ever runs,
so no error naming `core_update` is returned. -/
theorem core_new_missing_required_counterexample :
    (Core.new ⟨0, 0⟩
      ⟨9, ["core_setup_logger", "core_create", "core_destroy"], false⟩).1 =
      RunResult.fatal "called Result::unwrap on an Err value" ∧
    ((Core.new ⟨0, 0⟩
      ⟨9, ["core_setup_logger", "core_create", "core_destroy"], false⟩).1).isErr = false ∧
    decide ("core_update" ∈
      (["core_setup_logger", "core_create", "core_destroy"] : List String)) = false :=
  ⟨rfl, rfl, rfl⟩

/-- Claim C2, amended.  Provided the optional `core_setup_logger` invocation
(when the symbol is present) returns `Ok` — otherwise `Core::new` panics first
— then for a module missing at least one required export, `Core::new` returns
an error naming a missing required entry point; when exactly one required
export is missing, the error names exactly it; and no lifecycle call
(create/update/destroy) ever appears in the boundary trace. -/
theorem core_new_missing_required (g : LogGlobals) (lib : Library)
    (hmiss : ∃ n, n ∈ requiredNames ∧ n ∉ lib.exports)
    (hnp : "core_setup_logger" ∈ lib.exports → lib.setupLoggerOk = true) :
    (∃ n, n ∈ requiredNames ∧ n ∉ lib.exports ∧
      (Core.new g lib).1 = RunResult.err (missingMsg n)) ∧
    (∀ n, n ∈ requiredNames → n ∉ lib.exports →
      (∀ m, m ∈ requiredNames → m ≠ n → m ∈ lib.exports) →
      (Core.new g lib).1 = RunResult.err (missingMsg n)) ∧
    (∀ e ∈ (Core.new g lib).2, e ≠ HostEvent.createCall ∧
      e ≠ HostEvent.updateCall ∧ e ≠ HostEvent.destroyCall) := by
  refine ⟨?_, ?_, ?_⟩
  · rw [core_new_fst g lib hnp]
    exact resolveRequired_some_missing lib [] hmiss
  · intro n hn hna ho
    rw [core_new_fst g lib hnp]
    exact resolveRequired_missing_named lib [] n hn hna ho
  · intro e he
    rcases core_new_events g lib e he with ⟨m, rfl⟩ | rfl <;> simp

/-- Witness for amended claim C2, at a module exporting only `core_create`
and `core_destroy` (so `core_update` is the uniquely missing entry). -/
theorem core_new_missing_required_witness :
    (∃ n, n ∈ requiredNames ∧ n ∉ (Library.mk 4 ["core_create", "core_destroy"] true).exports ∧
      (Core.new ⟨0, 1⟩ ⟨4, ["core_create", "core_destroy"], true⟩).1 =
        RunResult.err (missingMsg n)) ∧
    (∀ n, n ∈ requiredNames → n ∉ (Library.mk 4 ["core_create", "core_destroy"] true).exports →
      (∀ m, m ∈ requiredNames → m ≠ n →
        m ∈ (Library.mk 4 ["core_create", "core_destroy"] true).exports) →
      (Core.new ⟨0, 1⟩ ⟨4, ["core_create", "core_destroy"], true⟩).1 =
        RunResult.err (missingMsg n)) ∧
    (∀ e ∈ (Core.new ⟨0, 1⟩ ⟨4, ["core_create", "core_destroy"], true⟩).2,
      e ≠ HostEvent.createCall ∧ e ≠ HostEvent.updateCall ∧ e ≠ HostEvent.destroyCall) :=
  core_new_missing_required ⟨0, 1⟩ ⟨4, ["core_create", "core_destroy"], true⟩
    ⟨"core_update", by decide, by decide⟩ (by decide)

/-- Claim C4, counterexample.  The claim says that for a module lacking
`core_setup_logger` the logger-injection capability is recorded as
unavailable.  But the value returned by `Core::new` is identical for a module
that exports `core_setup_logger` and one that does not (the `Core` struct has
only the three required symbols, src/lib.rs lines 24-28), so nothing in the
result records the capability at all. -/
theorem core_new_logger_capability_counterexample :
    (Core.new ⟨3, 4⟩
      ⟨7, ["core_setup_logger", "core_create", "core_destroy", "core_update"], true⟩).1 =
      (Core.new ⟨3, 4⟩ ⟨7, ["core_create", "core_destroy", "core_update"], true⟩).1 ∧
    decide ("core_setup_logger" ∈
      (["core_setup_logger", "core_create", "core_destroy", "core_update"] : List String)) =
        true ∧
    decide ("core_setup_logger" ∈
      (["core_create", "core_destroy", "core_update"] : List String)) = false :=
  ⟨rfl, rfl, rfl⟩

theorem core_new_no_logger_call (g : LogGlobals) (lib : Library)
    (hnl : "core_setup_logger" ∉ lib.exports) :
    ∀ a b, HostEvent.setupLoggerCall a b ∉ (Core.new g lib).2 := by
  intro a b hab
  unfold Core.new Library.get at hab
  simp only [hnl, if_neg] at hab
  rcases resolveRequired_events lib _ _ hab with hmem | ⟨n, _, heq⟩
  · simp at hmem
  · cases heq

/-- Claim C4, amended.  For every module lacking `core_setup_logger` but
having all required exports, `Core::new` completes without error and no
logger-injection call crosses the boundary; however no capability flag is
recorded — the returned value is the same as for the identical module with
`core_setup_logger` present. -/
theorem core_new_logger_absent (g : LogGlobals) (lib : Library)
    (hnl : "core_setup_logger" ∉ lib.exports)
    (hreq : ∀ n, n ∈ requiredNames → n ∈ lib.exports) :
    (∃ c, (Core.new g lib).1 = RunResult.ok c) ∧
    (∀ a b, HostEvent.setupLoggerCall a b ∉ (Core.new g lib).2) ∧
    (Core.new g lib).1 =
      (Core.new g (Library.mk lib.libId ("core_setup_logger" :: lib.exports) true)).1 := by
  have hc := hreq "core_create" (by simp [requiredNames])
  have hd := hreq "core_destroy" (by simp [requiredNames])
  have hu := hreq "core_update" (by simp [requiredNames])
  have hfst : (Core.new g lib).1 = (resolveRequired lib []).1 :=
    core_new_fst g lib (fun hmem => absurd hmem hnl)
  refine ⟨?_, core_new_no_logger_call g lib hnl, ?_⟩
  · rw [hfst, resolveRequired_all lib [] hc hd hu]
    exact ⟨_, rfl⟩
  · rw [hfst]
    rw [core_new_fst g _ (fun _ => rfl)]
    rw [resolveRequired_all lib [] hc hd hu]
    rw [resolveRequired_all _ [] (List.mem_cons_of_mem _ hc) (List.mem_cons_of_mem _ hd)
      (List.mem_cons_of_mem _ hu)]

/-- Witness for amended claim C4, at a module exporting exactly the three
required entry points. -/
theorem core_new_logger_absent_witness :
    (∃ c, (Core.new ⟨9, 9⟩ ⟨2, ["core_create", "core_destroy", "core_update"], true⟩).1 =
      RunResult.ok c) ∧
    (∀ a b, HostEvent.setupLoggerCall a b ∉
      (Core.new ⟨9, 9⟩ ⟨2, ["core_create", "core_destroy", "core_update"], true⟩).2) ∧
    (Core.new ⟨9, 9⟩ ⟨2, ["core_create", "core_destroy", "core_update"], true⟩).1 =
      (Core.new ⟨9, 9⟩ ⟨2, "core_setup_logger" :: ["core_create", "core_destroy", "core_update"], true⟩).1 :=
  core_new_logger_absent ⟨9, 9⟩ ⟨2, ["core_create", "core_destroy", "core_update"], true⟩
    (by decide) (by decide)


/-- Claim C8, counterexample.  The claim says an absent optional entry is
represented as an explicit "unavailable" state in the resulting structure.
But `Core::new` returns identical values for a module with and without the
optional `core_setup_logger`: the `Core` struct stores nothing about optional
entries, so absence is not represented at all (explicitly or otherwise). -/
theorem core_table_optional_counterexample :
    (Core.new ⟨1, 2⟩
      ⟨42, ["core_create", "core_setup_logger", "core_destroy", "core_update"], true⟩).1 =
      (Core.new ⟨1, 2⟩ ⟨42, ["core_create", "core_destroy", "core_update"], true⟩).1 ∧
    decide ("core_setup_logger" ∈
      (["core_create", "core_setup_logger", "core_destroy", "core_update"] : List String)) =
        true ∧
    decide ("core_setup_logger" ∈
      (["core_create", "core_destroy", "core_update"] : List String)) = false :=
  ⟨rfl, rfl, rfl⟩

/-- Claim C8, amended.  After `Core::new` returns successfully, every
required entry (create, destroy, update) is bound to a symbol resolved from
the module's exports — never a null call target; optional entries are not
represented in the structure at all (the `Core` struct has exactly the three
required fields), so no null optional call target can exist either. -/
theorem core_table_required_bound (g : LogGlobals) (lib : Library) (c : Core)
    (h : (Core.new g lib).1 = RunResult.ok c) :
    c.core_create_func = ⟨lib.libId, "core_create"⟩ ∧
    c.core_destroy_func = ⟨lib.libId, "core_destroy"⟩ ∧
    c.core_update_func = ⟨lib.libId, "core_update"⟩ ∧
    c.core_create_func.name ∈ lib.exports ∧
    c.core_destroy_func.name ∈ lib.exports ∧
    c.core_update_func.name ∈ lib.exports := by
  obtain ⟨hc, h1, h2, h3⟩ := core_new_ok h
  subst hc
  exact ⟨rfl, rfl, rfl, h1, h2, h3⟩

/-- Witness for amended claim C8, at a module exporting exactly the three
required entry points. -/
theorem core_table_required_bound_witness :
    (Core.new ⟨5, 5⟩ ⟨6, ["core_create", "core_destroy", "core_update"], true⟩).1 =
      RunResult.ok ⟨⟨6, "core_create"⟩, ⟨6, "core_destroy"⟩, ⟨6, "core_update"⟩⟩ ∧
    ((Core.mk ⟨6, "core_create"⟩ ⟨6, "core_destroy"⟩ ⟨6, "core_update"⟩).core_create_func =
      ⟨(Library.mk 6 ["core_create", "core_destroy", "core_update"] true).libId,
        "core_create"⟩ ∧
    (Core.mk ⟨6, "core_create"⟩ ⟨6, "core_destroy"⟩ ⟨6, "core_update"⟩).core_destroy_func =
      ⟨(Library.mk 6 ["core_create", "core_destroy", "core_update"] true).libId,
        "core_destroy"⟩ ∧
    (Core.mk ⟨6, "core_create"⟩ ⟨6, "core_destroy"⟩ ⟨6, "core_update"⟩).core_update_func =
      ⟨(Library.mk 6 ["core_create", "core_destroy", "core_update"] true).libId,
        "core_update"⟩ ∧
    (Core.mk ⟨6, "core_create"⟩ ⟨6, "core_destroy"⟩ ⟨6, "core_update"⟩).core_create_func.name ∈
      (Library.mk 6 ["core_create", "core_destroy", "core_update"] true).exports ∧
    (Core.mk ⟨6, "core_create"⟩ ⟨6, "core_destroy"⟩ ⟨6, "core_update"⟩).core_destroy_func.name ∈
      (Library.mk 6 ["core_create", "core_destroy", "core_update"] true).exports ∧
    (Core.mk ⟨6, "core_create"⟩ ⟨6, "core_destroy"⟩ ⟨6, "core_update"⟩).core_update_func.name ∈
      (Library.mk 6 ["core_create", "core_destroy", "core_update"] true).exports) :=
  ⟨rfl, core_table_required_bound ⟨5, 5⟩
    ⟨6, ["core_create", "core_destroy", "core_update"], true⟩
    ⟨⟨6, "core_create"⟩, ⟨6, "core_destroy"⟩, ⟨6, "core_update"⟩⟩ rfl⟩

/-- Claim C9.  The module handle structurally outlives every resolved symbol:
each of the three symbols held by a `Core` value produced by `Core::new`
carries the identity of (i.e. is resolved against) the very `Library` passed
in — the shallow rendering of `Core<'a>` holding `Symbol<'a, _>` values
borrowed from the `&'a Library`, which Rust's borrow checker then prevents
from outliving the library. -/
theorem core_borrows_library (g : LogGlobals) (lib : Library) (c : Core)
    (h : (Core.new g lib).1 = RunResult.ok c) :
    c.core_create_func.libId = lib.libId ∧
    c.core_destroy_func.libId = lib.libId ∧
    c.core_update_func.libId = lib.libId := by
  obtain ⟨hc, _, _, _⟩ := core_new_ok h
  subst hc
  exact ⟨rfl, rfl, rfl⟩

/-- Witness for claim C9, at a library with identity tag 31. -/
theorem core_borrows_library_witness :
    (Core.new ⟨8, 1⟩ ⟨31, ["core_create", "core_destroy", "core_update"], true⟩).1 =
      RunResult.ok ⟨⟨31, "core_create"⟩, ⟨31, "core_destroy"⟩, ⟨31, "core_update"⟩⟩ ∧
    ((Core.mk ⟨31, "core_create"⟩ ⟨31, "core_destroy"⟩ ⟨31, "core_update"⟩).core_create_func.libId =
      (Library.mk 31 ["core_create", "core_destroy", "core_update"] true).libId ∧
    (Core.mk ⟨31, "core_create"⟩ ⟨31, "core_destroy"⟩ ⟨31, "core_update"⟩).core_destroy_func.libId =
      (Library.mk 31 ["core_create", "core_destroy", "core_update"] true).libId ∧
    (Core.mk ⟨31, "core_create"⟩ ⟨31, "core_destroy"⟩ ⟨31, "core_update"⟩).core_update_func.libId =
      (Library.mk 31 ["core_create", "core_destroy", "core_update"] true).libId) :=
  ⟨rfl, core_borrows_library ⟨8, 1⟩
    ⟨31, ["core_create", "core_destroy", "core_update"], true⟩
    ⟨⟨31, "core_create"⟩, ⟨31, "core_destroy"⟩, ⟨31, "core_update"⟩⟩ rfl⟩

/-- Claim C10.  Whenever `core_setup_logger` resolves, `Core::new` invokes it
exactly once, with the process logger and active maximum level, immediately
after its own lookup and before any required-symbol lookup (the remaining
trace holds no further logger call and only required-name lookups); and if the
invocation returns an error, `Core::new` panics on the `.unwrap()` rather than
returning an `Err`. -/
theorem core_new_setup_logger_call (g : LogGlobals) (lib : Library)
    (hs : "core_setup_logger" ∈ lib.exports) :
    (∃ rest, (Core.new g lib).2 =
        HostEvent.lookup "core_setup_logger" ::
          HostEvent.setupLoggerCall g.logger g.maxLevel :: rest ∧
      (∀ a b, HostEvent.setupLoggerCall a b ∉ rest) ∧
      (∀ n, HostEvent.lookup n ∈ rest → n ∈ requiredNames)) ∧
    (lib.setupLoggerOk = false →
      (Core.new g lib).1 = RunResult.fatal "called Result::unwrap on an Err value") := by
  constructor
  · cases hok : lib.setupLoggerOk
    · refine ⟨[], ?_, by simp, by simp⟩
      rw [core_new_fatal g lib hs hok]
    · obtain ⟨rest, htr, hsub⟩ := resolveRequired_trace lib
        ([HostEvent.lookup "core_setup_logger"] ++
          [HostEvent.setupLoggerCall g.logger g.maxLevel])
      have htr2 : (Core.new g lib).2 = (resolveRequired lib
          ([HostEvent.lookup "core_setup_logger"] ++
            [HostEvent.setupLoggerCall g.logger g.maxLevel])).2 := by
        unfold Core.new Library.get
        simp [hs, hok]
      refine ⟨rest, ?_, ?_, ?_⟩
      · rw [htr2, htr]
        simp
      · intro a b hab
        have hm := hsub hab
        simp at hm
      · intro n hn
        have hm := hsub hn
        simp [requiredNames] at hm ⊢
        tauto
  · intro hbad
    rw [core_new_fatal g lib hs hbad]

/-- Witness for claim C10, at a module exporting `core_setup_logger` and the
three required entry points. -/
theorem core_new_setup_logger_call_witness :
    ((∃ rest, (Core.new ⟨5, 6⟩
        ⟨1, ["core_setup_logger", "core_create", "core_destroy", "core_update"], true⟩).2 =
        HostEvent.lookup "core_setup_logger" :: HostEvent.setupLoggerCall 5 6 :: rest ∧
      (∀ a b, HostEvent.setupLoggerCall a b ∉ rest) ∧
      (∀ n, HostEvent.lookup n ∈ rest → n ∈ requiredNames)) ∧
    ((Library.mk 1 ["core_setup_logger", "core_create", "core_destroy", "core_update"]
        true).setupLoggerOk = false →
      (Core.new ⟨5, 6⟩
        ⟨1, ["core_setup_logger", "core_create", "core_destroy", "core_update"], true⟩).1 =
        RunResult.fatal "called Result::unwrap on an Err value")) :=
  core_new_setup_logger_call ⟨5, 6⟩
    ⟨1, ["core_setup_logger", "core_create", "core_destroy", "core_update"], true⟩
    (by decide)

/-- Claim C3, counterexample.  The claim says the module path comes from an
explicit override when supplied, without a hardcoded platform extension.  But
`load_core` (src/lib.rs lines 111-115) takes no override: an OS loader that
only knows an override path yields a load failure, because the one path ever
consulted is the hardcoded `../../../retrovert-core/target/debug/librv_core.so`,
whose `.so` extension is fixed in the source. -/
theorem load_core_counterexample :
    Core.load_core (fun p =>
      if p = "./override_core.dylib" then some ⟨11, ["core_create"], true⟩ else none) =
      Except.error ("cannot open " ++ core_filename) ∧
    core_filename = "../../../retrovert-core/target/debug/librv_core.so" ∧
    core_filename.takeRight 3 = ".so" :=
  ⟨rfl, rfl, rfl⟩

/-- Claim C3, amended.  `load_core` consults the operating-system loader at
exactly one path — the hardcoded `core_filename`, with its fixed `.so`
extension — succeeding iff the loader resolves that path; its behaviour is
unchanged by how the loader treats any other path (no override exists). -/
theorem load_core_fixed_path (os os' : String → Option Library)
    (h : os core_filename = os' core_filename) :
    Core.load_core os = Core.load_core os' ∧
    core_filename.takeRight 3 = ".so" ∧
    (∀ lib, os core_filename = some lib → Core.load_core os = Except.ok lib) ∧
    (os core_filename = none →
      Core.load_core os = Except.error ("cannot open " ++ core_filename)) := by
  refine ⟨?_, rfl, ?_, ?_⟩
  · unfold Core.load_core
    rw [h]
  · intro lib hl
    unfold Core.load_core
    rw [hl]
  · intro hn
    unfold Core.load_core
    rw [hn]

/-- Witness for amended claim C3, at an OS loader resolving every path. -/
theorem load_core_fixed_path_witness :
    (Core.load_core (fun _ => some (Library.mk 12 ["core_create"] true)) =
      Core.load_core (fun _ => some (Library.mk 12 ["core_create"] true)) ∧
    core_filename.takeRight 3 = ".so" ∧
    (∀ lib, (fun _ => some (Library.mk 12 ["core_create"] true) :
        String → Option Library) core_filename = some lib →
      Core.load_core (fun _ => some (Library.mk 12 ["core_create"] true)) =
        Except.ok lib) ∧
    ((fun _ => some (Library.mk 12 ["core_create"] true) :
        String → Option Library) core_filename = none →
      Core.load_core (fun _ => some (Library.mk 12 ["core_create"] true)) =
        Except.error ("cannot open " ++ core_filename))) :=
  load_core_fixed_path (fun _ => some (Library.mk 12 ["core_create"] true))
    (fun _ => some (Library.mk 12 ["core_create"] true)) rfl

/-- Claim C7.  Whenever `init_logging` succeeds it installs a single combined
sink holding exactly a console (terminal) output at `Warn` and a log-file
output at `Info`, and `Warn` is a strictly coarser severity threshold than
`Info`. -/
theorem init_logging_thresholds (pcd : Option String) (cdo cfo : String → Bool)
    (las : Bool) (sink : List SinkOutput)
    (h : init_logging pcd cdo cfo las = Except.ok sink) :
    ∃ dir, pcd = some dir ∧
      sink = [SinkOutput.term LevelFilter.warn,
        SinkOutput.write LevelFilter.info (dir ++ "/retrovert.log")] ∧
      strictlyCoarser LevelFilter.warn LevelFilter.info := by
  cases pcd with
  | none => exact Except.noConfusion h
  | some dir =>
    refine ⟨dir, rfl, ?_, by decide⟩
    unfold init_logging at h
    by_cases hd : cdo dir = true
    · simp only [hd, if_true] at h
      by_cases hf : cfo (dir ++ "/retrovert.log") = true
      · simp only [hf, if_true] at h
        cases las
        · simp only [Bool.false_eq_true, if_false] at h
          exact ((Except.ok.injEq _ _).mp h).symm
        · simp at h
      · simp only [hf, if_false] at h
        exact Except.noConfusion h
    · simp only [hd, if_false] at h
      exact Except.noConfusion h

/-- Witness for claim C7, at a configuration directory `/cfg` with all
filesystem operations succeeding and no logger yet installed. -/
theorem init_logging_thresholds_witness :
    init_logging (some "/cfg") (fun _ => true) (fun _ => true) false =
      Except.ok [SinkOutput.term LevelFilter.warn,
        SinkOutput.write LevelFilter.info "/cfg/retrovert.log"] ∧
    (∃ dir, (some "/cfg" : Option String) = some dir ∧
      [SinkOutput.term LevelFilter.warn,
        SinkOutput.write LevelFilter.info "/cfg/retrovert.log"] =
        [SinkOutput.term LevelFilter.warn,
          SinkOutput.write LevelFilter.info (dir ++ "/retrovert.log")] ∧
      strictlyCoarser LevelFilter.warn LevelFilter.info) :=
  ⟨rfl, init_logging_thresholds (some "/cfg") (fun _ => true) (fun _ => true) false
    [SinkOutput.term LevelFilter.warn,
      SinkOutput.write LevelFilter.info "/cfg/retrovert.log"] rfl⟩

end CoreLoader
